import Mathlib

/-!
Verification of `buzzline-05-alvaro`.

Shallow embedding of `src/consumers/consumer_alvaro.py` and
`src/utils/utils_config.py`.

The SQLite database reachable through a `db_path` is modelled as an explicit
state value (`DB`): an optional `streamed_messages` table holding its schema,
its rows in rowid order, and the AUTOINCREMENT counter (`sqlite_sequence`).
Each Python function becomes a state-passing Lean function returning
`Except PyExn (result)`: a `.error` models an exception escaping the function,
a `.ok` models a normal return.  Failures of the underlying sqlite layer
(connect/execute/commit raising) are injected through a `fault : Option String`
argument: `none` means the sqlite calls succeed, `some m` means the sqlite
call raises `sqlite3.Error(m)`; since the `with sqlite3.connect(...)` context
manager rolls back on an exception, a faulting call leaves the database state
unchanged.  Log output of the `logger` collaborator is returned explicitly as
a `List LogEvent`.
-/

namespace Buzzline

/-- One record emitted through the `logger` collaborator
(`logger.info(...)` / `logger.error(...)`). -/
inductive LogEvent
  | info (msg : String)
  | error (msg : String)
  deriving DecidableEq, Repr

/-- Whether a log event was emitted at error level. -/
def LogEvent.isError : LogEvent → Bool
  | .info _ => false
  | .error _ => true

/-- The Python exceptions the embedded functions can raise:
`KeyError` from a `message[...]` subscript on a missing key, and
`sqlite3.Error` from the sqlite layer (connect/execute/commit). -/
inductive PyExn
  | keyError (key : String)
  | sqliteError (msg : String)
  deriving DecidableEq, Repr

/-- The `{e}` rendering of an exception inside the `f`-string of an
`except` block's log message. -/
def PyExn.render : PyExn → String
  | .keyError k => "KeyError: " ++ k
  | .sqliteError m => m

/-- One row of the `streamed_messages` table: the sink-assigned `id`
(INTEGER PRIMARY KEY AUTOINCREMENT) plus the seven Message fields, in the
order of the CREATE TABLE statement.  `sentiment` is REAL; the values the
program stores there are finite decimals, modelled as rationals. -/
structure Row where
  id : Nat
  message : String
  author : String
  timestamp : String
  category : String
  sentiment : Rat
  keyword_mentioned : String
  message_length : Int
  deriving DecidableEq, Repr

/-- The Python `message: dict` argument of `insert_message`, restricted to
the seven keys the function subscripts.  A field is `none` when the key is
absent from the dict (so that `message[key]` raises `KeyError`). -/
structure MessageDict where
  message : Option String
  author : Option String
  timestamp : Option String
  category : Option String
  sentiment : Option Rat
  keyword_mentioned : Option String
  message_length : Option Int
  deriving DecidableEq, Repr

/-- All seven keys are present in the dict. -/
def MessageDict.complete (m : MessageDict) : Bool :=
  m.message.isSome && m.author.isSome && m.timestamp.isSome &&
    m.category.isSome && m.sentiment.isSome && m.keyword_mentioned.isSome &&
    m.message_length.isSome

/-- The column list of the CREATE TABLE statement in `init_db`
(name, declared type), in source order. -/
def streamedMessagesColumns : List (String × String) :=
  [("id", "INTEGER PRIMARY KEY AUTOINCREMENT"),
   ("message", "TEXT"),
   ("author", "TEXT"),
   ("timestamp", "TEXT"),
   ("category", "TEXT"),
   ("sentiment", "REAL"),
   ("keyword_mentioned", "TEXT"),
   ("message_length", "INTEGER")]

/-- The `streamed_messages` table: its schema, its rows in rowid order, and
the next AUTOINCREMENT id (sqlite assigns `nextId` to the next inserted row;
`DROP TABLE` also clears the associated `sqlite_sequence` entry, so a
recreated table starts again at 1). -/
structure Table where
  schema : List (String × String)
  rows : List Row
  nextId : Nat
  deriving DecidableEq, Repr

/-- The state of the SQLite database file at `db_path`.
`table = none` models a database in which `streamed_messages` does not
exist (e.g. before any `init_db`). -/
structure DB where
  table : Option Table
  deriving DecidableEq, Repr

/-- Number of rows currently stored in `streamed_messages` (0 when the
table does not exist). -/
def DB.rowCount (db : DB) : Nat :=
  match db.table with
  | none => 0
  | some t => t.rows.length

/-- The `try` block of `init_db`: `DROP TABLE IF EXISTS streamed_messages`
followed by `CREATE TABLE IF NOT EXISTS streamed_messages (...)` and a
commit.  A sqlite-layer fault raises; the context manager then rolls the
transaction back, leaving the state unchanged.  On success the table exists,
is empty, and its AUTOINCREMENT counter is reset (the drop removed the
`sqlite_sequence` entry). -/
def init_db_body (fault : Option String) (_db : DB) : Except PyExn DB :=
  match fault with
  | some m => .error (.sqliteError m)
  | none => .ok { table := some { schema := streamedMessagesColumns, rows := [], nextId := 1 } }

/-- `init_db(db_path)`: logs, runs the body, and catches every exception
(`except Exception as e`), logging an error instead of re-raising.  The
function therefore always returns normally. -/
def init_db (fault : Option String) (db : DB) : Except PyExn (DB × List LogEvent) :=
  match init_db_body fault db with
  | .ok db' =>
      .ok (db', [.info "Calling SQLite init_db() with db_path.",
                 .info "SUCCESS: Got a cursor to execute SQL.",
                 .info "SUCCESS: Database initialized and table ready at db_path."])
  | .error e =>
      .ok (db, [.info "Calling SQLite init_db() with db_path.",
                .error ("ERROR: Failed to initialize a sqlite database at db_path: " ++ e.render)])

/-- `message[key]`: returns the value, or raises `KeyError(key)` when the
key is absent. -/
def getKey (v : Option α) (key : String) : Except PyExn α :=
  match v with
  | some x => .ok x
  | none => .error (.keyError key)

/-- The `try` block of `insert_message`: evaluate the seven
`message[...]` subscripts (the parameter tuple of `cursor.execute`, left to
right), then perform the INSERT and commit.  A sqlite-layer fault (from
connect, execute or commit) raises and is rolled back; a missing table also
makes execute raise.  On success the row is appended with the next
AUTOINCREMENT id. -/
def insert_message_body (m : MessageDict) (fault : Option String) (db : DB) :
    Except PyExn DB := do
  let message ← getKey m.message "message"
  let author ← getKey m.author "author"
  let timestamp ← getKey m.timestamp "timestamp"
  let category ← getKey m.category "category"
  let sentiment ← getKey m.sentiment "sentiment"
  let keyword_mentioned ← getKey m.keyword_mentioned "keyword_mentioned"
  let message_length ← getKey m.message_length "message_length"
  match fault with
  | some s => .error (.sqliteError s)
  | none =>
    match db.table with
    | none => .error (.sqliteError "no such table: streamed_messages")
    | some t =>
      .ok { table := some { t with
              rows := t.rows ++ [{ id := t.nextId, message, author, timestamp,
                                   category, sentiment, keyword_mentioned,
                                   message_length }],
              nextId := t.nextId + 1 } }

/-- `insert_message(message, db_path)`: logs the arguments, runs the body,
and catches every exception, logging an error instead of re-raising; there
is no retry.  The function therefore always returns normally, and on any
failure the database state is unchanged. -/
def insert_message (m : MessageDict) (fault : Option String) (db : DB) :
    Except PyExn (DB × List LogEvent) :=
  let header := [LogEvent.info "Calling SQLite insert_message() with:",
                 LogEvent.info "message=...", LogEvent.info "db_path=..."]
  match insert_message_body m fault db with
  | .ok db' => .ok (db', header ++ [.info "Inserted one message into the database."])
  | .error e =>
      .ok (db, header ++ [.error ("ERROR: Failed to insert message into the database: " ++ e.render)])

/-- The `try` block of `delete_message`:
`DELETE FROM streamed_messages WHERE id = ?` and commit.  The DELETE keeps
exactly the rows whose id differs from `message_id`. -/
def delete_message_body (message_id : Nat) (fault : Option String) (db : DB) :
    Except PyExn DB :=
  match fault with
  | some s => .error (.sqliteError s)
  | none =>
    match db.table with
    | none => .error (.sqliteError "no such table: streamed_messages")
    | some t => .ok { table := some { t with rows := t.rows.filter (fun r => r.id ≠ message_id) } }

/-- `delete_message(message_id, db_path)`: runs the body and catches every
exception, logging an error instead of re-raising. -/
def delete_message (message_id : Nat) (fault : Option String) (db : DB) :
    Except PyExn (DB × List LogEvent) :=
  match delete_message_body message_id fault db with
  | .ok db' => .ok (db', [.info "Deleted message with id message_id from the database."])
  | .error e =>
      .ok (db, [.error ("ERROR: Failed to delete message from the database: " ++ e.render)])

/-- Descending-count order on (value, count) pairs: the order of
`sort_values(ascending=False)` on the counts (and of
`ORDER BY frequency DESC`). -/
def byCountDesc (a b : String × Nat) : Prop := b.2 ≤ a.2

instance : DecidableRel byCountDesc := fun a b => Nat.decLe b.2 a.2

instance : IsTotal (String × Nat) byCountDesc :=
  ⟨fun a b => le_total b.2 a.2⟩

instance : IsTrans (String × Nat) byCountDesc :=
  ⟨fun _ _ _ h1 h2 => le_trans h2 h1⟩

/-- Group-and-count a column: one (value, count) pair per distinct value,
then sorted by descending count.  This is the common core of
`analyze_*_trends` (pandas `groupby(col)[col].count().sort_values(ascending=False)`)
and of the GROUP BY / ORDER BY frequency DESC query.  The enumeration order
of the distinct values before the final sort affects only the relative
order of values with equal counts, which both the unstable quicksort of
`sort_values` and sqlite's ORDER BY leave unspecified; the model fixes one
such order. -/
def trendCounts (xs : List String) : List (String × Nat) :=
  List.insertionSort byCountDesc (xs.dedup.map (fun k => (k, xs.count k)))

/-- `analyze_keyword_trends(df)`: group-and-count the `keyword_mentioned`
column, descending; the resulting insertion-ordered Python dict is modelled
as the ordered association list. -/
def analyze_keyword_trends (df : List Row) : List (String × Nat) :=
  trendCounts (df.map Row.keyword_mentioned)

/-- `analyze_category_trends(df)`: group-and-count the `category` column,
descending. -/
def analyze_category_trends (df : List Row) : List (String × Nat) :=
  trendCounts (df.map Row.category)

/-- `analyze_author_trends(df)`: group-and-count the `author` column,
descending. -/
def analyze_author_trends (df : List Row) : List (String × Nat) :=
  trendCounts (df.map Row.author)

/-- `get_all_messages(db_path)`: `SELECT * FROM streamed_messages` into a
DataFrame; on any error (connect fault, missing table) the exception is
caught and an empty DataFrame is returned. -/
def get_all_messages (fault : Option String) (db : DB) : List Row :=
  match fault, db.table with
  | none, some t => t.rows
  | _, _ => []

/-- `get_keywords_by_frequency(db_path, top_n)`:
`SELECT keyword_mentioned, COUNT(*) AS frequency FROM streamed_messages
GROUP BY keyword_mentioned ORDER BY frequency DESC LIMIT ?` with the
nonnegative row limit `top_n`; on any error the exception is caught and an
empty DataFrame is returned. -/
def get_keywords_by_frequency (fault : Option String) (db : DB) (top_n : Nat) :
    List (String × Nat) :=
  match fault, db.table with
  | none, some t => (trendCounts (t.rows.map Row.keyword_mentioned)).take top_n
  | _, _ => []

/-- The Python signature defaults `top_n` to 10. -/
def get_keywords_by_frequency_top10 (fault : Option String) (db : DB) :
    List (String × Nat) :=
  get_keywords_by_frequency fault db 10

/-! ### `utils/utils_config.py` -/

/-- The process environment: `os.getenv` returns `none` for an unset
variable. -/
def Env : Type := String → Option String

/-- `os.getenv(key, str(default))`. -/
def os_getenv (env : Env) (key : String) (default : String) : String :=
  (env key).getD default

/-- `_get_config_value(key, default, str, redact)`, at `type_ = str`, the
instantiation every string getter (including `get_postgres_password`) uses:
`str(value)` on a string is the identity and never raises `ValueError`, so
the `except ValueError` branch is dead here; then the redaction test, then
the return.  Returns the value together with the emitted log. -/
def _get_config_value (env : Env) (key : String) (default : String)
    (redact : Bool) : String × List LogEvent :=
  let value := os_getenv env key default
  if redact && key == "POSTGRES_PASSWORD" then
    ("[REDACTED]", [.info (key ++ ": [REDACTED]")])
  else
    (value, [.info (key ++ ": " ++ value)])

/-- `get_postgres_password()`:
`_get_config_value("POSTGRES_PASSWORD", "your_password", str, redact=True)`. -/
def get_postgres_password (env : Env) : String × List LogEvent :=
  _get_config_value env "POSTGRES_PASSWORD" "your_password" true

/-! ### Sample data for concrete evaluations -/

/-- A freshly created `streamed_messages` table. -/
def freshTable : Table :=
  { schema := streamedMessagesColumns, rows := [], nextId := 1 }

/-- A freshly initialized database. -/
def freshDB : DB := { table := some freshTable }

/-- The `test_message` dict of `main()`, with every key present. -/
def sampleMsg : MessageDict :=
  { message := some "I just shared a meme! It was amazing.",
    author := some "Charlie",
    timestamp := some "2025-01-29 14:35:20",
    category := some "humor",
    sentiment := some (87 / 100),
    keyword_mentioned := some "meme",
    message_length := some 42 }

/-- `test_message` with the `sentiment` key removed. -/
def msgMissingSentiment : MessageDict := { sampleMsg with sentiment := none }

/-- A row of the sample DataFrame used for the analytics scenario. -/
def sampleRow (i : Nat) (author keyword : String) : Row :=
  { id := i, message := "hi", author := author, timestamp := "2025-01-01T00:00:00",
    category := "News", sentiment := 1 / 2, keyword_mentioned := keyword,
    message_length := 2 }

/-- Three persisted records whose keywords are `["x", "x", "y"]`. -/
def sampleDf : List Row :=
  [sampleRow 1 "A" "x", sampleRow 2 "B" "x", sampleRow 3 "A" "y"]

/-! ### Helper lemmas -/

/-- An incomplete message dict makes the body of `insert_message` raise
(the first absent key raises `KeyError` from the parameter tuple). -/
lemma insert_message_body_incomplete (m : MessageDict) (fault : Option String)
    (db : DB) (h : m.complete = false) :
    ∃ e, insert_message_body m fault db = .error e := by
  obtain ⟨m1, m2, m3, m4, m5, m6, m7⟩ := m
  cases m1 <;> cases m2 <;> cases m3 <;> cases m4 <;> cases m5 <;> cases m6 <;> cases m7 <;>
    first
      | exact ⟨_, rfl⟩
      | simp [MessageDict.complete] at h

/-- A sqlite-layer fault makes the body of `insert_message` raise (either the
`KeyError` of a missing key, evaluated while building the parameter tuple, or
the injected `sqlite3.Error`). -/
lemma insert_message_body_fault (m : MessageDict) (s : String) (db : DB) :
    ∃ e, insert_message_body m (some s) db = .error e := by
  obtain ⟨m1, m2, m3, m4, m5, m6, m7⟩ := m
  cases m1 <;> cases m2 <;> cases m3 <;> cases m4 <;> cases m5 <;> cases m6 <;> cases m7 <;>
    exact ⟨_, rfl⟩

/-- `insert_message` always returns normally: every exception of its body is
caught by the `except` block. -/
lemma insert_message_always_ok (m : MessageDict) (fault : Option String) (db : DB) :
    ∃ r, insert_message m fault db = .ok r := by
  unfold insert_message
  cases insert_message_body m fault db <;> exact ⟨_, rfl⟩

/-- When the body raises, `insert_message` logs an error and returns with the
database unchanged. -/
lemma insert_message_error_of_body_error (m : MessageDict) (fault : Option String)
    (db : DB) (e : PyExn) (he : insert_message_body m fault db = .error e) :
    ∃ log, insert_message m fault db = .ok (db, log) ∧ log.any LogEvent.isError = true := by
  refine ⟨[.info "Calling SQLite insert_message() with:", .info "message=...",
           .info "db_path=...",
           .error ("ERROR: Failed to insert message into the database: " ++ e.render)],
         ?_, rfl⟩
  unfold insert_message
  rw [he]
  rfl

/-- Everything `trendCounts` does to the grouped pairs is a permutation of
the per-distinct-value count list. -/
lemma trendCounts_perm (xs : List String) :
    List.Perm (trendCounts xs) (xs.dedup.map (fun k => (k, xs.count k))) :=
  List.perm_insertionSort _ _

/-- `trendCounts` output is sorted by descending count. -/
lemma trendCounts_sorted (xs : List String) :
    (trendCounts xs).Sorted byCountDesc :=
  List.sorted_insertionSort _ _

/-- Membership in a `trendCounts` output characterizes the group-and-count
contract: the pairs are exactly the distinct column values with their
occurrence counts. -/
lemma mem_trendCounts (xs : List String) (k : String) (n : Nat) :
    (k, n) ∈ trendCounts xs ↔ k ∈ xs ∧ n = xs.count k := by
  rw [(trendCounts_perm xs).mem_iff]
  constructor
  · intro h
    obtain ⟨k', hk', hp⟩ := List.mem_map.mp h
    cases hp
    exact ⟨List.mem_dedup.mp hk', rfl⟩
  · rintro ⟨hk, rfl⟩
    exact List.mem_map.mpr ⟨k, List.mem_dedup.mpr hk, rfl⟩

/-- The number of pairs produced by `trendCounts` is the number of distinct
values in the column. -/
lemma trendCounts_length (xs : List String) :
    (trendCounts xs).length = xs.dedup.length := by
  rw [(trendCounts_perm xs).length_eq, List.length_map]

/-- `test_message` with the `author` key removed. -/
def msgMissingAuthor : MessageDict := { sampleMsg with author := none }

/-- The environment in which `POSTGRES_PASSWORD` is set to a secret. -/
def envWithSecret : Env :=
  fun k => if k == "POSTGRES_PASSWORD" then some "hunter2" else none

/-- The environment in which nothing is set. -/
def envNoSecret : Env := fun _ => none

/-- A table holding the three sample records, as left by three inserts into
a fresh database. -/
def sampleTable : Table :=
  { schema := streamedMessagesColumns, rows := sampleDf, nextId := 4 }

/-- A database holding the three sample records. -/
def sampleDB : DB := { table := some sampleTable }

/-- When ids are unique, deleting by one id removes at most one row. -/
lemma filter_id_ne_length (rows : List Row) (i : Nat)
    (h : (rows.map Row.id).Nodup) :
    rows.length - (rows.filter (fun r => r.id ≠ i)).length ≤ 1 := by
  induction rows with
  | nil => simp
  | cons r rs ih =>
    rw [List.map_cons, List.nodup_cons] at h
    by_cases hr : r.id = i
    · have hkeep : rs.filter (fun x => decide (x.id ≠ i)) = rs :=
        List.filter_eq_self.mpr (fun x hx =>
          decide_eq_true (fun he => h.1 (hr ▸ he ▸ List.mem_map_of_mem Row.id hx)))
      rw [List.filter_cons_of_neg (by simp [hr]), hkeep, List.length_cons]
      omega
    · have hl := ih h.2
      rw [List.filter_cons_of_pos (by simp [hr]), List.length_cons, List.length_cons]
      omega

/-! ### Claim theorems -/

/-- C1 counterexample: inserting the test message with its `sentiment` key
removed into a freshly initialized database does not persist the record with
a default substituted — it persists nothing at all: `insert_message` comes
back with the database unchanged (still zero rows) and an error logged, so
the record is rejected, contradicting the claim that persisting succeeds
with `0.0` substituted for the missing sentiment. -/
theorem insert_missing_field_not_defaulted :
    (∃ log, insert_message msgMissingSentiment none freshDB = .ok (freshDB, log) ∧
        log.any LogEvent.isError = true) ∧
      freshDB.rowCount = 0 :=
  ⟨⟨_, rfl, rfl⟩, rfl⟩

/-- C1 amended: if any of the seven Message keys is absent from the dict,
`insert_message` does not substitute a default: the `KeyError` raised while
building the SQL parameter tuple is caught by the `except` block, an error
is logged, the function returns normally, and the record is not persisted
(the database state is unchanged). -/
theorem insert_incomplete_message_rejected (m : MessageDict) (fault : Option String)
    (db : DB) (h : m.complete = false) :
    ∃ log, insert_message m fault db = .ok (db, log) ∧ log.any LogEvent.isError = true := by
  obtain ⟨e, he⟩ := insert_message_body_incomplete m fault db h
  exact insert_message_error_of_body_error m fault db e he

/-- C1 amended, witness: the dict missing the `author` key is incomplete and
is dropped with the database unchanged. -/
theorem insert_incomplete_message_rejected_witness :
    msgMissingAuthor.complete = false ∧
    ∃ log, insert_message msgMissingAuthor none freshDB = .ok (freshDB, log) ∧
      log.any LogEvent.isError = true :=
  ⟨rfl, insert_incomplete_message_rejected msgMissingAuthor none freshDB rfl⟩

/-- C2: `insert_message` never raises: it always returns normally, and when
the underlying sqlite write fails (for any injected fault), it logs an error
and returns with the database state unchanged — no partial or duplicate row
and no automatic retry (the body attempts the write exactly once). -/
theorem insert_message_resilient (m : MessageDict) (fault : Option String) (db : DB) :
    (∃ r, insert_message m fault db = .ok r) ∧
    (∀ s, fault = some s →
      ∃ log, insert_message m fault db = .ok (db, log) ∧ log.any LogEvent.isError = true) := by
  refine ⟨insert_message_always_ok m fault db, ?_⟩
  rintro s rfl
  obtain ⟨e, he⟩ := insert_message_body_fault m s db
  exact insert_message_error_of_body_error m _ db e he

/-- C2 witness: a faulting write of the complete test message against a
fresh database returns normally, leaves the database unchanged, and logs an
error. -/
theorem insert_message_resilient_witness :
    ∃ log, insert_message sampleMsg (some "database is locked") freshDB =
        .ok (freshDB, log) ∧ log.any LogEvent.isError = true :=
  (insert_message_resilient sampleMsg (some "database is locked") freshDB).2
    "database is locked" rfl

/-- C3: `init_db` is an idempotent reset: called on any database state it
returns normally with the `streamed_messages` table present and empty, and
calling it again on the resulting state returns exactly the same state
(so the state after two consecutive calls equals the state after one,
whatever rows were inserted in between). -/
theorem init_db_idempotent_reset (db : DB) :
    ∃ db1 l1 l2,
      init_db none db = .ok (db1, l1) ∧
      init_db none db1 = .ok (db1, l2) ∧
      ∃ t, db1.table = some t ∧ t.rows = [] :=
  ⟨_, _, _, rfl, rfl, _, rfl, rfl⟩

/-- C6 counterexample: when sink initialization fails (the sqlite layer
raises "unable to open database file"), `init_db` returns normally
(`Except.ok`, the exception swallowed by its `except` block) instead of
propagating a failure signal past `init_db`, contradicting the claim that
the failure is fatal and propagates to the process boundary. -/
theorem init_db_failure_swallowed :
    init_db (some "unable to open database file") { table := none } =
      .ok ({ table := none },
        [.info "Calling SQLite init_db() with db_path.",
         .error "ERROR: Failed to initialize a sqlite database at db_path: unable to open database file"]) :=
  rfl

/-- C6 amended: if sink initialization fails, `init_db` catches the
exception, logs an error, and returns normally with the database state
unchanged; no failure propagates past `init_db`, so processing can proceed
without a validated sink. -/
theorem init_db_catches_init_failure (s : String) (db : DB) :
    ∃ log, init_db (some s) db = .ok (db, log) ∧ log.any LogEvent.isError = true :=
  ⟨_, rfl, rfl⟩

/-- C7: after a successful `init_db`, the database contains the
`streamed_messages` table and its columns are exactly
`id INTEGER PRIMARY KEY AUTOINCREMENT, message TEXT, author TEXT,
timestamp TEXT, category TEXT, sentiment REAL, keyword_mentioned TEXT,
message_length INTEGER`, in that order. -/
theorem init_db_creates_streamed_messages_schema (db : DB) :
    ∃ t log, init_db none db = .ok ({ table := some t }, log) ∧
      t.schema = [("id", "INTEGER PRIMARY KEY AUTOINCREMENT"), ("message", "TEXT"),
                  ("author", "TEXT"), ("timestamp", "TEXT"), ("category", "TEXT"),
                  ("sentiment", "REAL"), ("keyword_mentioned", "TEXT"),
                  ("message_length", "INTEGER")] :=
  ⟨_, _, rfl, rfl⟩

/-- C9: `get_postgres_password` is independent of the secret: for any two
environments that agree outside `POSTGRES_PASSWORD`, it returns the same
value, namely the literal `"[REDACTED]"` — the configured password is never
returned to a caller. -/
theorem get_postgres_password_redacted (env1 env2 : Env)
    (_h : ∀ k, k ≠ "POSTGRES_PASSWORD" → env1 k = env2 k) :
    (get_postgres_password env1).1 = (get_postgres_password env2).1 ∧
    (get_postgres_password env1).1 = "[REDACTED]" :=
  ⟨rfl, rfl⟩

/-- C9 witness: the environment holding a secret password and the empty
environment agree outside `POSTGRES_PASSWORD` and yield the same redacted
result. -/
theorem get_postgres_password_redacted_witness :
    (get_postgres_password envWithSecret).1 = (get_postgres_password envNoSecret).1 ∧
    (get_postgres_password envWithSecret).1 = "[REDACTED]" := by
  refine get_postgres_password_redacted envWithSecret envNoSecret ?_
  intro k hk
  have hb : (k == "POSTGRES_PASSWORD") = false := beq_eq_false_iff_ne.mpr hk
  simp [envWithSecret, envNoSecret, hb]

/-- C4: persist/remove round-trip: inserting a complete message and then
deleting the identity the sink assigned to it (the AUTOINCREMENT value
`t.nextId`) leaves the record count equal to the count before the insert
(and the insert did add exactly one row in between).  The id-bound
hypothesis is the AUTOINCREMENT invariant: every stored row's id is below
the next id to be assigned. -/
theorem insert_then_delete_roundtrip (m : MessageDict) (db : DB) (t : Table)
    (ht : db.table = some t) (hm : m.complete = true)
    (hids : ∀ r ∈ t.rows, r.id < t.nextId) :
    ∃ db1 l1 db2 l2,
      insert_message m none db = .ok (db1, l1) ∧
      db1.rowCount = db.rowCount + 1 ∧
      delete_message t.nextId none db1 = .ok (db2, l2) ∧
      db2.rowCount = db.rowCount := by
  obtain ⟨tb⟩ := db
  change tb = some t at ht
  subst ht
  obtain ⟨m1, m2, m3, m4, m5, m6, m7⟩ := m
  cases m1 <;> cases m2 <;> cases m3 <;> cases m4 <;> cases m5 <;> cases m6 <;> cases m7 <;>
    try simp [MessageDict.complete] at hm
  refine ⟨_, _, _, _, rfl, ?_, rfl, ?_⟩
  · simp [DB.rowCount]
  · have hkeep : t.rows.filter (fun x => decide (x.id ≠ t.nextId)) = t.rows :=
      List.filter_eq_self.mpr (fun x hx =>
        decide_eq_true (Nat.ne_of_lt (hids x hx)))
    simp only [DB.rowCount, List.filter_append]
    rw [hkeep]
    simp

/-- C4 witness: inserting the complete test message into a fresh database
and deleting the assigned identity restores the original record count. -/
theorem insert_then_delete_roundtrip_witness :
    ∃ db1 l1 db2 l2,
      insert_message sampleMsg none freshDB = .ok (db1, l1) ∧
      db1.rowCount = freshDB.rowCount + 1 ∧
      delete_message freshTable.nextId none db1 = .ok (db2, l2) ∧
      db2.rowCount = freshDB.rowCount :=
  insert_then_delete_roundtrip sampleMsg freshDB freshTable rfl rfl
    (by intro r hr; simp [freshTable] at hr)

/-- C5: each `analyze_*_trends` function returns the group-and-count of its
column — the pairs are exactly the distinct column values with their
occurrence counts — ordered by descending count; and on the three sample
records with keywords `["x", "x", "y"]` it yields `[("x", 2), ("y", 1)]`. -/
theorem analyze_trends_group_count_desc (df : List Row) :
    ((analyze_keyword_trends df).Sorted byCountDesc ∧
      ∀ k n, ((k, n) ∈ analyze_keyword_trends df ↔
        k ∈ df.map Row.keyword_mentioned ∧ n = (df.map Row.keyword_mentioned).count k)) ∧
    ((analyze_category_trends df).Sorted byCountDesc ∧
      ∀ k n, ((k, n) ∈ analyze_category_trends df ↔
        k ∈ df.map Row.category ∧ n = (df.map Row.category).count k)) ∧
    ((analyze_author_trends df).Sorted byCountDesc ∧
      ∀ k n, ((k, n) ∈ analyze_author_trends df ↔
        k ∈ df.map Row.author ∧ n = (df.map Row.author).count k)) ∧
    analyze_keyword_trends sampleDf = [("x", 2), ("y", 1)] :=
  ⟨⟨trendCounts_sorted _, fun k n => mem_trendCounts _ k n⟩,
   ⟨trendCounts_sorted _, fun k n => mem_trendCounts _ k n⟩,
   ⟨trendCounts_sorted _, fun k n => mem_trendCounts _ k n⟩,
   by decide⟩

/-- C8: `delete_message i` removes at most the single record whose id is
`i`: the surviving rows are exactly the stored rows whose id differs from
`i`, kept byte-for-byte unchanged and in order (a `filter`, no field
rewritten); at most one row disappears; and when no row has id `i` the
database state is completely unchanged. -/
theorem delete_message_frame (i : Nat) (db : DB) (t : Table)
    (ht : db.table = some t) (hnodup : (t.rows.map Row.id).Nodup) :
    ∃ t' log, delete_message i none db = .ok ({ table := some t' }, log) ∧
      t'.rows = t.rows.filter (fun r => r.id ≠ i) ∧
      (∀ r ∈ t.rows, r.id ≠ i → r ∈ t'.rows) ∧
      (∀ r ∈ t'.rows, r ∈ t.rows) ∧
      t.rows.length - t'.rows.length ≤ 1 ∧
      ((∀ r ∈ t.rows, r.id ≠ i) → delete_message i none db = .ok (db, log)) := by
  obtain ⟨tb⟩ := db
  change tb = some t at ht
  subst ht
  refine ⟨_, _, rfl, rfl, ?_, ?_, ?_, ?_⟩
  · exact fun r hr hne => List.mem_filter.mpr ⟨hr, decide_eq_true hne⟩
  · exact fun r hr => (List.mem_filter.mp hr).1
  · exact filter_id_ne_length t.rows i hnodup
  · intro hall
    have hkeep : t.rows.filter (fun r => decide (r.id ≠ i)) = t.rows :=
      List.filter_eq_self.mpr (fun r hr => decide_eq_true (hall r hr))
    have ht' : ({ schema := t.schema,
                  rows := List.filter (fun r => decide (r.id ≠ i)) t.rows,
                  nextId := t.nextId } : Table) = t := by
      rw [hkeep]
    exact congrArg
      (fun tb : Table =>
        (Except.ok (({ table := some tb } : DB),
          [LogEvent.info "Deleted message with id message_id from the database."]) :
          Except PyExn (DB × List LogEvent))) ht'

/-- C8 witness: deleting id 1 from the three sample records (ids 1, 2, 3)
removes exactly that row and leaves the others untouched. -/
theorem delete_message_frame_witness :
    ∃ t' log, delete_message 1 none sampleDB = .ok ({ table := some t' }, log) ∧
      t'.rows = sampleTable.rows.filter (fun r => r.id ≠ 1) ∧
      (∀ r ∈ sampleTable.rows, r.id ≠ 1 → r ∈ t'.rows) ∧
      (∀ r ∈ t'.rows, r ∈ sampleTable.rows) ∧
      sampleTable.rows.length - t'.rows.length ≤ 1 ∧
      ((∀ r ∈ sampleTable.rows, r.id ≠ 1) → delete_message 1 none sampleDB = .ok (sampleDB, log)) :=
  delete_message_frame 1 sampleDB sampleTable rfl (by decide)

/-- C10: when the table holds more than `top_n` distinct
`keyword_mentioned` values, `get_keywords_by_frequency` returns exactly
`top_n` pairs — the initial segment of the descending-frequency ranking,
every omitted keyword's count being at most every returned one — silently
dropping the rest; and the Python signature defaults `top_n` to 10. -/
theorem get_keywords_by_frequency_truncates (db : DB) (t : Table) (top_n : Nat)
    (ht : db.table = some t)
    (hmany : top_n < (t.rows.map Row.keyword_mentioned).dedup.length) :
    (get_keywords_by_frequency none db top_n).length = top_n ∧
    get_keywords_by_frequency none db top_n =
      (trendCounts (t.rows.map Row.keyword_mentioned)).take top_n ∧
    (get_keywords_by_frequency none db top_n).Sorted byCountDesc ∧
    (∀ p ∈ (trendCounts (t.rows.map Row.keyword_mentioned)).drop top_n,
       ∀ q ∈ get_keywords_by_frequency none db top_n, p.2 ≤ q.2) ∧
    get_keywords_by_frequency_top10 none db = get_keywords_by_frequency none db 10 := by
  obtain ⟨tb⟩ := db
  change tb = some t at ht
  subst ht
  refine ⟨?_, rfl, ?_, ?_, rfl⟩
  · show ((trendCounts (t.rows.map Row.keyword_mentioned)).take top_n).length = top_n
    rw [List.length_take, trendCounts_length]
    omega
  · exact List.Pairwise.sublist (List.take_sublist _ _) (trendCounts_sorted _)
  · intro p hp q hq
    have hs := trendCounts_sorted (t.rows.map Row.keyword_mentioned)
    rw [← List.take_append_drop top_n (trendCounts (t.rows.map Row.keyword_mentioned))] at hs
    exact (List.pairwise_append.mp hs).2.2 q hq p hp

/-- C10 witness: with keywords `["x", "x", "y"]` (two distinct values) and
`top_n = 1`, the query returns exactly the single most frequent keyword. -/
theorem get_keywords_by_frequency_truncates_witness :
    (get_keywords_by_frequency none sampleDB 1).length = 1 ∧
    get_keywords_by_frequency none sampleDB 1 =
      (trendCounts (sampleTable.rows.map Row.keyword_mentioned)).take 1 ∧
    (get_keywords_by_frequency none sampleDB 1).Sorted byCountDesc ∧
    (∀ p ∈ (trendCounts (sampleTable.rows.map Row.keyword_mentioned)).drop 1,
       ∀ q ∈ get_keywords_by_frequency none sampleDB 1, p.2 ≤ q.2) ∧
    get_keywords_by_frequency_top10 none sampleDB = get_keywords_by_frequency none sampleDB 10 :=
  get_keywords_by_frequency_truncates sampleDB sampleTable 1 rfl (by decide)

end Buzzline
